import Mathlib

/-!
# Verification of the CRM Lambda request router

A shallow embedding of `src/cloudformation/lambda_handler.py`: a request
router for a serverless HTTP endpoint that dispatches on a path segment to
a customer/interaction data store (DynamoDB) and an external issue tracker
(Jira REST API).

External collaborators (DynamoDB, Secrets Manager, the tracker's HTTP
endpoint, and the wall clock) are modelled as oracles collected in a
`World`; the Python functions become Lean functions over that `World`.
Fallible Python code (code that can raise) returns `Except PyErr`.
Python values that flow through JSON are modelled by `JValue`.
-/

/-- A JSON-shaped Python value: `None`, `bool`, `int`, `str`, `list`, `dict`.
(JSON floats do not occur in the payloads this handler touches.) -/
inductive JValue where
  | null
  | bool (b : Bool)
  | num (n : Int)
  | str (s : String)
  | arr (items : List JValue)
  | obj (fields : List (String × JValue))
deriving Repr

/-- Association-list lookup (Python `dict` access by string key). -/
def alookup {α : Type} : List (String × α) → String → Option α
  | [], _ => none
  | (k, v) :: rest, key => if k = key then some v else alookup rest key

/-- Python truthiness of a `JValue` (`if x:`): `None`, `False`, `0`, `""`,
`[]` and `{}` are falsy. -/
def pyTruthy : JValue → Bool
  | .null => false
  | .bool b => b
  | .num n => n != 0
  | .str s => !s.isEmpty
  | .arr l => !l.isEmpty
  | .obj l => !l.isEmpty

/-- Python `f"{x}"` on an optional string: `None` prints as `"None"`. -/
def pyStr : Option String → String
  | none => "None"
  | some s => s

/-- A Python `Optional[str]` as a JSON value (`None` serialises to `null`). -/
def jOfOptStr : Option String → JValue
  | none => .null
  | some s => .str s

/-- A Python `Optional[dict]` as a JSON value. -/
def jOfOptObj : Option (List (String × JValue)) → JValue
  | none => .null
  | some l => .obj l

/-- The exceptions the embedded code can raise. -/
inductive PyErr where
  | keyError (key : String)
  | typeError
  | valueError
  | attributeError
  | jsonDecodeError
  | unicodeDecodeError
  | overflowError
  | httpError (code : Int) (reason : String)
  | urlError (reason : String)
  | store (msg : String)
  | secrets (msg : String)
deriving Repr, DecidableEq

/-- `true` exactly when an `Except` computation did not raise. -/
def exOk {ε α : Type} : Except ε α → Bool
  | .ok _ => true
  | .error _ => false

/-- Python `int(s)` on a `str` (`ValueError` when it does not parse as an
integer; the underscore/plus-sign forms of CPython's grammar are not
exercised by this handler's callers and are not modelled). -/
def pyIntOfString (s : String) : Except PyErr Int :=
  match s.trim.toInt? with
  | some n => .ok n
  | none => .error .valueError

/-- Python `int(x)` where `x` is an optional string (query parameter):
`int(None)` raises `TypeError`. -/
def pyIntOfOptString (o : Option String) : Except PyErr Int :=
  match o with
  | none => .error .typeError
  | some s => pyIntOfString s

/-- Python `int(x)` on an optional JSON value (a field read from the request
body): `int(None)` raises `TypeError`; lists/dicts/null raise `TypeError`. -/
def pyIntOfJValue (o : Option JValue) : Except PyErr Int :=
  match o with
  | none => .error .typeError
  | some (.num n) => .ok n
  | some (.bool b) => .ok (if b then 1 else 0)
  | some (.str s) => pyIntOfString s
  | some _ => .error .typeError

/-- Python subscript `j[key]` with a string key: `KeyError` when a dict
lacks the key, `TypeError` on any non-dict. -/
def pyGet (j : JValue) (key : String) : Except PyErr JValue :=
  match j with
  | .obj fields =>
    match alookup fields key with
    | some v => .ok v
    | none => .error (.keyError key)
  | _ => .error .typeError

/-! ## The external world

One record of oracles stands for everything outside the handler's own code:
the two DynamoDB tables, Secrets Manager, the tracker's HTTP endpoint and
the current date. -/

/-- An item of the interactions table: `date` is the sort key (a string,
present on every item by table schema); `attrs` are the remaining
attributes. -/
structure RawInteraction where
  date : String
  attrs : List (String × JValue)

/-- Outcome of one Secrets Manager `get_secret_value` call: the call raises,
or succeeds with a response that carries a `SecretString` or (e.g. for a
binary-only secret) does not. -/
inductive SecretResult where
  | raise (msg : String)
  | ok (secretString : Option String)

/-- An outbound HTTP request as the tracker client builds it. The query
string is kept structured; percent-encoding of the parameters is
`urllib.parse.urlencode`'s job and is not re-modelled. -/
structure HttpRequest where
  url : String
  params : List (String × String)
  method : String
  headers : List (String × String)
  data : Option JValue

/-- Outcome of one `urllib.request.urlopen` call, body reading included:
an HTTP error status, a transport error, or a 2xx body. A body carries
first the UTF-8 decode outcome and then the `json.loads` outcome of the
decoded text. -/
inductive HttpResult where
  | httpError (code : Int) (reason : String)
  | urlError (reason : String)
  | ok (body : Except Unit (Except Unit JValue))

/-- The oracles for everything outside the handler. A `some msg` in
`interactionsErr`/`customersErr` makes the corresponding DynamoDB calls
raise (a backend failure); `nowDays` is today's date as days since
1970-01-01 (`datetime.datetime.now()`). -/
structure World where
  interactionsTable : Option String → List RawInteraction
  interactionsErr : Option String
  customersTable : Option String → Option (List (String × JValue))
  customersErr : Option String
  secretsManager : Option String → SecretResult
  http : HttpRequest → HttpResult
  nowDays : Int

/-! ## CustomerService

`CustomerService.__init__` only stores two DynamoDB table handles (no
failure, no logic), so its methods are embedded as functions over the
`World` directly. -/

/-- The store's guarantee for `interactions_table.query(...)`: items of the
partition arrive ordered by the sort key `date`; `ScanIndexForward=False`
makes that order descending. -/
def sortInteractionsDesc (l : List RawInteraction) : List RawInteraction :=
  List.insertionSort (fun a b => b.date ≤ a.date) l

/-- The projection `"#interaction_date,notes"`: the returned item keeps the
`date` key and, when present, `notes` - nothing else. -/
def projectInteraction (it : RawInteraction) : JValue :=
  .obj (("date", .str it.date) ::
    (match alookup it.attrs "notes" with
     | some v => [("notes", v)]
     | none => []))

/-- `interactions_table.query(ScanIndexForward=False, Limit=count, ...)`:
descending by `date`, at most `count` items, projected to `date`/`notes`.
DynamoDB rejects a non-positive `Limit` (ValidationException). -/
def queryInteractions (w : World) (customer_id : Option String) (count : Int) :
    Except PyErr (List JValue) :=
  match w.interactionsErr with
  | some msg => .error (.store msg)
  | none =>
    if count ≤ 0 then .error (.store "ValidationException: Limit must be at least 1")
    else .ok (((sortInteractionsDesc (w.interactionsTable customer_id)).take count.toNat).map
      projectInteraction)

/-- `CustomerService.get_recent_customer_interactions`: runs the query and
returns `response["Items"]`; any store failure is logged and re-raised
unmodified. -/
def get_recent_customer_interactions (w : World) (customer_id : Option String)
    (count : Int) : Except PyErr (List JValue) :=
  match queryInteractions w customer_id count with
  | .error e => .error e
  | .ok items => .ok items

/-- `get_item` with `ProjectionExpression=",".join(args)`: the returned item
holds exactly the requested attributes that exist on the record, in request
order. -/
def projectFields (rec : List (String × JValue)) (args : List String) :
    List (String × JValue) :=
  args.filterMap (fun a => (alookup rec a).map (fun v => (a, v)))

/-- `CustomerService.get_customer_details`: `get_item` by key with a field
projection; `response.get("Item", None)` is `None` when no record exists.
Store failures are logged and re-raised. -/
def get_customer_details (w : World) (customer_id : Option String)
    (args : List String) : Except PyErr (Option (List (String × JValue))) :=
  match w.customersErr with
  | some msg => .error (.store msg)
  | none => .ok ((w.customersTable customer_id).map (fun rec => projectFields rec args))

/-- `CustomerService.get_customer_overview`:
`if response: return response["overview"] else: return {}` - both `None`
(no record) and the empty projected dict (record without the field) are
falsy and coalesce to `{}`. -/
def get_customer_overview (w : World) (customer_id : Option String) :
    Except PyErr JValue :=
  match get_customer_details w customer_id ["overview"] with
  | .error e => .error e
  | .ok response =>
    match response with
    | some item =>
      if item.isEmpty then .ok (.obj [])
      else
        match alookup item "overview" with
        | some v => .ok v
        | none => .error (.keyError "overview")
    | none => .ok (.obj [])

/-- `CustomerService.get_customer_preferences`: returns the projected
response unchanged - `None` when no record exists. -/
def get_customer_preferences (w : World) (customer_id : Option String) :
    Except PyErr (Option (List (String × JValue))) :=
  match get_customer_details w customer_id ["meetingType", "timeofDay", "dayOfWeek"] with
  | .error e => .error e
  | .ok response => .ok response

/-! ## Secrets and the Jira client's construction -/

/-- `get_secret`: one `get_secret_value` call; an exception is re-raised,
and a successful response yields its `SecretString` - the function has no
`else` branch, so a response without a `SecretString` makes it return
`None` implicitly. -/
def get_secret (w : World) (secret_name : String) : Except PyErr (Option String) :=
  match w.secretsManager (some secret_name) with
  | .raise msg => .error (.secrets msg)
  | .ok ss => .ok ss

/-- `JiraInteraction.get_jira_api_key`: fetches the secret at
`self.jira_api_key_arn` and indexes `secret["SecretString"]` directly, so a
response without a `SecretString` raises `KeyError` here (caught, logged and
re-raised). boto3 rejects `SecretId=None` before any call (parameter
validation), which the same handler re-raises. -/
def get_jira_api_key (w : World) (arn : Option String) : Except PyErr String :=
  match arn with
  | none => .error (.secrets "ParamValidationError")
  | some a =>
    match w.secretsManager (some a) with
    | .raise msg => .error (.secrets msg)
    | .ok none => .error (.keyError "SecretString")
    | .ok (some s) => .ok s

/-- UTF-8 bytes of one character (`str.encode("utf-8")`). -/
def utf8Bytes (c : Char) : List Nat :=
  let n := c.toNat
  if n < 128 then [n]
  else if n < 2048 then [192 + n / 64, 128 + n % 64]
  else if n < 65536 then [224 + n / 4096, 128 + n / 64 % 64, 128 + n % 64]
  else [240 + n / 262144, 128 + n / 4096 % 64, 128 + n / 64 % 64, 128 + n % 64]

/-- UTF-8 bytes of a string. -/
def strBytes (s : String) : List Nat :=
  (s.toList.map utf8Bytes).flatten

/-- The base64 alphabet. -/
def b64Chars : List Char :=
  "ABCDEFGHIJKLMNOPQRSTUVWXYZabcdefghijklmnopqrstuvwxyz0123456789+/".toList

/-- The base64 digit for a 6-bit value. -/
def b64Char (n : Nat) : Char := b64Chars.getD n 'A'

/-- `base64.b64encode` on a byte list. -/
def b64Encode : List Nat → String
  | [] => ""
  | [a] => String.mk [b64Char (a / 4), b64Char (a % 4 * 16), '=', '=']
  | [a, b] => String.mk [b64Char (a / 4), b64Char (a % 4 * 16 + b / 16), b64Char (b % 16 * 4), '=']
  | a :: b :: c :: rest =>
    String.mk [b64Char (a / 4), b64Char (a % 4 * 16 + b / 16),
      b64Char (b % 16 * 4 + c / 64), b64Char (c % 64)] ++ b64Encode rest

/-- The state `JiraInteraction.__init__` leaves on the instance. The three
`get_secret` results are optional strings (see `get_secret`). -/
structure JiraInst where
  jira_url : Option String
  jira_api_key_arn : Option String
  jira_username : Option String
  credentials : String

/-- The headers built once in `__init__` and reused by every call. -/
def jiraHeaders (ji : JiraInst) : List (String × String) :=
  [("Accept", "application/json"), ("Content-Type", "application/json"),
   ("Authorization", "Basic " ++ ji.credentials)]

/-- `JiraInteraction.__init__`: three `get_secret` calls, then the API key
fetch, then the Basic-Auth credentials
`b64encode(f"{username}:{api_key}".encode("utf-8"))`. Any exception from
the secret lookups propagates uncaught. -/
def jiraInit (w : World) : Except PyErr JiraInst :=
  match get_secret w "JIRA_URL" with
  | .error e => .error e
  | .ok url =>
    match get_secret w "JIRA_API_KEY_ARN" with
    | .error e => .error e
    | .ok arn =>
      match get_secret w "JIRA_USER_NAME" with
      | .error e => .error e
      | .ok user =>
        match get_jira_api_key w arn with
        | .error e => .error e
        | .ok key =>
          .ok ⟨url, arn, user, b64Encode (strBytes (pyStr user ++ ":" ++ key))⟩

/-! ## The open-issues search -/

/-- A single-quote character as a string (for the JQL literals). -/
def squo : String := String.mk [Char.ofNat 39]

/-- The JQL f-string of `get_open_jira_issues`, verbatim from the source:
`project={project_id} AND issuetype=Task AND status='In Progress' OR
status='To Do' order by duedate`. -/
def jqlString (project_id : Option String) : String :=
  "project=" ++ pyStr project_id ++ " AND issuetype=Task AND status=" ++ squo ++
    "In Progress" ++ squo ++ " OR status=" ++ squo ++ "To Do" ++ squo ++ " order by duedate"

/-- The GET request `{jira_url}/search?jql=...` with the auth headers. -/
def search_request (ji : JiraInst) (project_id : Option String) : HttpRequest :=
  { url := pyStr ji.jira_url ++ "/search"
    params := [("jql", jqlString project_id)]
    method := "GET"
    headers := jiraHeaders ji
    data := none }

/-- JQL boolean expressions, for stating what grouping the query string
denotes under JQL's precedence (AND binds tighter than OR). `cmp` is
`field=value`, `cmpQ` is `field='value'`. -/
inductive JqlExpr where
  | cmp (field value : String)
  | cmpQ (field value : String)
  | and (l r : JqlExpr)
  | or (l r : JqlExpr)

/-- Renders a `JqlExpr` without parentheses, as the source's f-string does. -/
def renderJql : JqlExpr → String
  | .cmp f v => f ++ "=" ++ v
  | .cmpQ f v => f ++ "=" ++ squo ++ v ++ squo
  | .and l r => renderJql l ++ " AND " ++ renderJql r
  | .or l r => renderJql l ++ " OR " ++ renderJql r

/-- The reading of the query under JQL's precedence (AND over OR): the
project/type filter is grouped with the `In Progress` clause only, and the
`To Do` clause stands alone, unscoped. -/
def jqlPrecedenceReading (project_id : Option String) : JqlExpr :=
  .or (.and (.and (.cmp "project" (pyStr project_id)) (.cmp "issuetype" "Task"))
        (.cmpQ "status" "In Progress"))
    (.cmpQ "status" "To Do")

/-- `if issue["fields"]["assignee"]: ...["displayName"] else "None"`:
a falsy assignee (JSON `null`) becomes the literal string `"None"`. -/
def parseAssignee (a : JValue) : Except PyErr JValue :=
  if pyTruthy a then pyGet a "displayName" else .ok (.str "None")

/-- Builds one task dict from one issue of the response, with the source's
subscript chain; any missing key or non-dict value raises (caught by the
caller's handlers). -/
def parseIssue (issue : JValue) : Except PyErr JValue :=
  match pyGet issue "key" with
  | .error e => .error e
  | .ok key =>
    match pyGet issue "fields" with
    | .error e => .error e
    | .ok fields =>
      match pyGet fields "summary" with
      | .error e => .error e
      | .ok summary =>
        match pyGet fields "status" with
        | .error e => .error e
        | .ok status =>
          match pyGet status "name" with
          | .error e => .error e
          | .ok statusName =>
            match pyGet fields "project" with
            | .error e => .error e
            | .ok project =>
              match pyGet project "name" with
              | .error e => .error e
              | .ok projectName =>
                match pyGet fields "duedate" with
                | .error e => .error e
                | .ok duedate =>
                  match pyGet fields "assignee" with
                  | .error e => .error e
                  | .ok assignee =>
                    match parseAssignee assignee with
                    | .error e => .error e
                    | .ok assigneeName =>
                      .ok (.obj [("issueKey", key), ("summary", summary),
                        ("status", statusName), ("project", projectName),
                        ("duedate", duedate), ("assignee", assigneeName)])

/-- The `for issue in response_json["issues"]` loop: the first exception
discards every task accumulated so far. -/
def parseIssues : List JValue → Except PyErr (List JValue)
  | [] => .ok []
  | issue :: rest =>
    match parseIssue issue with
    | .error e => .error e
    | .ok t =>
      match parseIssues rest with
      | .error e => .error e
      | .ok ts => .ok (t :: ts)

/-- The `try` block of `get_open_jira_issues`: the request, the body decode,
`json.loads`, and the parsing loop. (Iterating a non-list `issues` value is
modelled as `TypeError`; in CPython the loop either raises on its first
element or yields no parseable element, so the swallowed result is the
same.) -/
def get_open_try (w : World) (ji : JiraInst) (project_id : Option String) :
    Except PyErr (List JValue) :=
  match w.http (search_request ji project_id) with
  | .httpError code reason => .error (.httpError code reason)
  | .urlError reason => .error (.urlError reason)
  | .ok (.error _) => .error .unicodeDecodeError
  | .ok (.ok (.error _)) => .error .jsonDecodeError
  | .ok (.ok (.ok response_json)) =>
    match pyGet response_json "issues" with
    | .error e => .error e
    | .ok issues =>
      match issues with
      | .arr items => parseIssues items
      | _ => .error .typeError

/-- `JiraInteraction.get_open_jira_issues`: the `except` clauses catch
`HTTPError`, `URLError`, `JSONDecodeError` and every other `Exception`, log,
and fall through to `return []`. -/
def get_open_jira_issues (w : World) (ji : JiraInst) (project_id : Option String) :
    List JValue :=
  match get_open_try w ji project_id with
  | .ok tasks => tasks
  | .error _ => []

/-! ## The issue update and its due-date arithmetic -/

/-- `datetime.timedelta(weeks=w)` normalises to `7*w` days. -/
def timedeltaWeeksDays (weeks : Int) : Int := 7 * weeks

/-- `datetime.datetime` + `timedelta`, at day granularity: CPython raises
`OverflowError` when the result falls outside the supported calendar
(year 1 to 9999; in days since 1970-01-01: -719162 to 2932896). -/
def pyDateAdd (now delta : Int) : Except PyErr Int :=
  if now + delta < -719162 then .error .overflowError
  else if 2932896 < now + delta then .error .overflowError
  else .ok (now + delta)

/-- Proleptic-Gregorian date of a day number (days since 1970-01-01):
(year, month, day). -/
def civilFromDays (z0 : Int) : Int × Int × Int :=
  let z := z0 + 719468
  let era := Int.ediv z 146097
  let doe := Int.emod z 146097
  let yoe := Int.ediv (doe - Int.ediv doe 1460 + Int.ediv doe 36524 - Int.ediv doe 146096) 365
  let y := yoe + era * 400
  let doy := doe - (365 * yoe + Int.ediv yoe 4 - Int.ediv yoe 100)
  let mp := Int.ediv (5 * doy + 2) 153
  let d := doy - Int.ediv (153 * mp + 2) 5 + 1
  let m := if mp < 10 then mp + 3 else mp - 9
  (if m ≤ 2 then y + 1 else y, m, d)

/-- Zero-padded two-digit field of `strftime`. -/
def pad2 (n : Nat) : String :=
  if n < 10 then "0" ++ toString n else toString n

/-- Zero-padded four-digit year of `strftime("%Y")`. -/
def pad4 (n : Nat) : String :=
  if n < 10 then "000" ++ toString n
  else if n < 100 then "00" ++ toString n
  else if n < 1000 then "0" ++ toString n
  else toString n

/-- `strftime("%Y-%m-%d")` of a day number. -/
def strftimeYmd (z : Int) : String :=
  match civilFromDays z with
  | (y, m, d) => pad4 y.toNat ++ "-" ++ pad2 m.toNat ++ "-" ++ pad2 d.toNat

/-- The PUT request `{jira_url}/issue/{issue_key}` with payload
`{"fields": {"duedate": due_date}}`. -/
def update_request (ji : JiraInst) (issue_key : Option String) (due_date : String) :
    HttpRequest :=
  { url := pyStr ji.jira_url ++ "/issue/" ++ pyStr issue_key
    params := []
    method := "PUT"
    headers := jiraHeaders ji
    data := some (.obj [("fields", .obj [("duedate", .str due_date)])]) }

/-- `JiraInteraction.update_jira_issue`: the due date is computed BEFORE the
`try` block (source lines 146-148), so an `OverflowError` from the date
arithmetic propagates uncaught; inside the `try`, any failure of the PUT is
caught and swallowed to `{}`, and a successful PUT returns
`{"issueKey": issue_key, "newTimeline": timeline_in_weeks}` (the response
body is read but never parsed). -/
def update_jira_issue (w : World) (ji : JiraInst) (issue_key : Option String)
    (timeline_in_weeks : Int) : Except PyErr JValue :=
  match pyDateAdd w.nowDays (timedeltaWeeksDays timeline_in_weeks) with
  | .error e => .error e
  | .ok dueDays =>
    match w.http (update_request ji issue_key (strftimeYmd dueDays)) with
    | .ok (.ok _) =>
      .ok (.obj [("issueKey", jOfOptStr issue_key), ("newTimeline", .num timeline_in_weeks)])
    | _ => .ok (.obj [])

/-! ## The request router -/

/-- The inbound event, already shaped as API Gateway delivers it: the proxy
path, the four query parameters (absent ones are `None`), and the body -
`none` when absent or falsy, otherwise the `json.loads` outcome of its
text. -/
structure Event where
  apiPath : String
  customerId : Option String
  count : Option String
  projectId : Option String
  issueKey : Option String
  body : Option (Except Unit JValue)

/-- The response envelope. The source serialises
`{"statusCode": code, "body": json.dumps({"message": result})}`; the
`message` payload is kept structured here. -/
structure Response where
  statusCode : Nat
  message : JValue

/-- The five paths of the dispatch table. -/
def recognizedPaths : List String :=
  ["/listRecentInteractions", "/getPreferences", "/companyOverview",
   "/getOpenJiraIssues", "/updateJiraIssue"]

/-- The handler's pre-dispatch parsing (source lines 194-203): extract the
parameters, parse the body when present and truthy (`json.loads` may raise;
`.get` on a non-dict JSON body raises `AttributeError`), and read
`timelineInWeeks`. -/
def parse_phase (ev : Event) : Except PyErr (Option JValue) :=
  match ev.body with
  | none => .ok none
  | some (.error _) => .error .jsonDecodeError
  | some (.ok (.obj fields)) => .ok (alookup fields "timelineInWeeks")
  | some (.ok _) => .error .attributeError

/-- The dispatch chain of `lambda_handler` (source lines 212-228): exact
string match on the path; `count` and `timelineInWeeks` are parsed to `int`
only on the branch that needs them; the fallthrough shapes the 404. -/
def dispatch (w : World) (ev : Event) (ji : JiraInst)
    (timeline_in_weeks : Option JValue) : Except PyErr Response :=
  if ev.apiPath = "/listRecentInteractions" then
    match pyIntOfOptString ev.count with
    | .error e => .error e
    | .ok count =>
      match get_recent_customer_interactions w ev.customerId count with
      | .error e => .error e
      | .ok items => .ok ⟨200, .arr items⟩
  else if ev.apiPath = "/getPreferences" then
    match get_customer_preferences w ev.customerId with
    | .error e => .error e
    | .ok r => .ok ⟨200, jOfOptObj r⟩
  else if ev.apiPath = "/companyOverview" then
    match get_customer_overview w ev.customerId with
    | .error e => .error e
    | .ok r => .ok ⟨200, r⟩
  else if ev.apiPath = "/getOpenJiraIssues" then
    .ok ⟨200, .arr (get_open_jira_issues w ji ev.projectId)⟩
  else if ev.apiPath = "/updateJiraIssue" then
    match pyIntOfJValue timeline_in_weeks with
    | .error e => .error e
    | .ok t =>
      match update_jira_issue w ji ev.issueKey t with
      | .error e => .error e
      | .ok r => .ok ⟨200, r⟩
  else
    .ok ⟨404, .str ("Unrecognized api path: " ++ ev.apiPath)⟩

/-- `lambda_handler`: parse (lines 194-203), construct the two clients
(lines 209-210; `CustomerService.__init__` cannot fail,
`JiraInteraction()` can), then dispatch. No `try` anywhere: every raised
exception propagates out of the invocation. -/
def lambda_handler (w : World) (ev : Event) : Except PyErr Response :=
  match parse_phase ev with
  | .error e => .error e
  | .ok timeline_in_weeks =>
    match jiraInit w with
    | .error e => .error e
    | .ok ji => dispatch w ev ji timeline_in_weeks

/-! ## Derived observers -/

/-- The `date` field of a projected interaction item (the first field's
string value). -/
def projDate (j : JValue) : String :=
  match j with
  | .obj ((_, .str d) :: _) => d
  | _ => ""

/-- The keys of a JSON object. -/
def objKeys (j : JValue) : List String :=
  match j with
  | .obj fields => fields.map (fun kv => kv.1)
  | _ => []

/-! ## Concrete worlds and events, for grounding the theorems -/

/-- A healthy world: all secrets resolve, both tables respond (and are
empty), the tracker endpoint refuses connections, today is 2024-01-01
(day 19723). -/
def wOk : World :=
  { interactionsTable := fun _ => []
    interactionsErr := none
    customersTable := fun _ => none
    customersErr := none
    secretsManager := fun k =>
      if k = some "JIRA_URL" then .ok (some "https://jira.example.com/rest/api/2")
      else if k = some "JIRA_API_KEY_ARN" then .ok (some "arn-1")
      else if k = some "JIRA_USER_NAME" then .ok (some "bob")
      else if k = some "arn-1" then .ok (some "k3y")
      else .raise "ResourceNotFoundException"
    http := fun _ => .urlError "connection refused"
    nowDays := 19723 }

/-- The instance `JiraInteraction()` builds in `wOk`
(base64 of `bob:k3y`). -/
def jiOk : JiraInst :=
  ⟨some "https://jira.example.com/rest/api/2", some "arn-1", some "bob", "Ym9iOmszeQ=="⟩

/-- Like `wOk`, but the `JIRA_URL` secret lookup raises. -/
def wUrlRaise : World :=
  { wOk with secretsManager := fun k =>
      if k = some "JIRA_URL" then .raise "boom" else wOk.secretsManager k }

/-- Like `wOk`, but the `JIRA_URL` secret resolves to a response without a
`SecretString`. -/
def wNoUrlString : World :=
  { wOk with secretsManager := fun k =>
      if k = some "JIRA_URL" then .ok none else wOk.secretsManager k }

/-- One customer record: an `overview` and a `meetingType`, no
`timeofDay`/`dayOfWeek`. -/
def custRec : List (String × JValue) :=
  [("overview", .str "Acme overview"), ("meetingType", .str "virtual")]

/-- Like `wOk`, but customer `C1` has a record. -/
def wCust : World :=
  { wOk with customersTable := fun cid =>
      if cid = some "C1" then some custRec else none }

/-- Two interactions, stored in ascending `date` order. -/
def dataRows : List RawInteraction :=
  [⟨"2024-01-05", [("notes", .str "kickoff")]⟩,
   ⟨"2024-02-11", [("notes", .str "renewal")]⟩]

/-- Like `wOk`, but the interactions table has data. -/
def wData : World :=
  { wOk with interactionsTable := fun _ => dataRows }

/-- Like `wOk`, but every interactions query fails. -/
def wStoreErr : World := { wOk with interactionsErr := some "throttled" }

/-- Like `wOk`, but the tracker accepts every request with an empty JSON
body. -/
def wPut : World := { wOk with http := fun _ => .ok (.ok (.ok .null)) }

/-- A request with an unrecognized path. -/
def evNope : Event := ⟨"/nope", none, none, none, none, none⟩

/-- A `/listRecentInteractions` request whose `count` parameter is absent. -/
def evNoCount : Event := ⟨"/listRecentInteractions", some "C1", none, none, none, none⟩

/-- A `/getOpenJiraIssues` request. -/
def evOpen : Event := ⟨"/getOpenJiraIssues", none, none, some "P1", none, none⟩

/-- A `/companyOverview` request - it never touches the issue tracker. -/
def evOverview : Event := ⟨"/companyOverview", some "C1", none, none, none, none⟩

/-! ## Helper lemmas -/

/-- The store's descending retrieval really is non-increasing by `date`. -/
theorem sorted_sortInteractionsDesc (l : List RawInteraction) :
    (sortInteractionsDesc l).Pairwise (fun a b => b.date ≤ a.date) := by
  haveI h1 : IsTotal RawInteraction (fun a b => b.date ≤ a.date) :=
    ⟨fun a b => le_total b.date a.date⟩
  haveI h2 : IsTrans RawInteraction (fun a b => b.date ≤ a.date) :=
    ⟨fun _ _ _ hab hbc => le_trans hbc hab⟩
  exact List.sorted_insertionSort _ l

/-- A projected interaction item's first field carries the item's date. -/
theorem projDate_projectInteraction (it : RawInteraction) :
    projDate (projectInteraction it) = it.date := by
  unfold projDate projectInteraction
  cases alookup it.attrs "notes" <;> rfl

/-- A projected interaction item has exactly the keys `date`, or `date` and
`notes`. -/
theorem objKeys_projectInteraction (it : RawInteraction) :
    objKeys (projectInteraction it) = ["date"] ∨
    objKeys (projectInteraction it) = ["date", "notes"] := by
  unfold objKeys projectInteraction
  cases alookup it.attrs "notes" <;> simp

/-- The parsing loop yields one task per issue when it succeeds. -/
theorem parseIssues_length (items : List JValue) (ts : List JValue)
    (h : parseIssues items = .ok ts) : ts.length = items.length := by
  induction items generalizing ts with
  | nil => unfold parseIssues at h; simp at h; simp [h]
  | cons i rest ih =>
    unfold parseIssues at h
    split at h
    · simp at h
    · split at h
      · simp at h
      · next t ht rest2 hrest =>
        simp only [Except.ok.injEq] at h
        subst h
        simp [ih _ hrest]

/-- Every exception `get_recent_customer_interactions` re-raises is a store
failure. -/
theorem get_recent_error_is_store (w : World) (cid : Option String) (count : Int)
    (e : PyErr) (h : get_recent_customer_interactions w cid count = .error e) :
    ∃ msg, e = .store msg := by
  unfold get_recent_customer_interactions queryInteractions at h
  cases herr : w.interactionsErr with
  | some msg =>
    rw [herr] at h
    dsimp only at h
    simp only [Except.error.injEq] at h
    exact ⟨msg, h.symm⟩
  | none =>
    rw [herr] at h
    dsimp only at h
    by_cases hc0 : count ≤ 0
    · rw [if_pos hc0] at h
      dsimp only at h
      simp only [Except.error.injEq] at h
      exact ⟨_, h.symm⟩
    · rw [if_neg hc0] at h
      dsimp only at h
      simp at h

/-- The single-field projection for the overview is either empty or carries
the `overview` key. -/
theorem proj_overview_cases (rec : List (String × JValue)) :
    (projectFields rec ["overview"]).isEmpty = true ∨
    ∃ v, alookup (projectFields rec ["overview"]) "overview" = some v := by
  cases halt : alookup rec "overview" with
  | none => left; simp [projectFields, halt]
  | some v => right; exact ⟨v, by simp [projectFields, halt, alookup]⟩

/-- Every exception `get_customer_overview` re-raises is the store failure
of its `get_item` call (the `KeyError` branch is unreachable: a truthy
single-field projection always carries that field). -/
theorem overview_error_is_store (w : World) (cid : Option String) (e : PyErr)
    (h : get_customer_overview w cid = .error e) :
    ∃ msg, e = .store msg ∧ w.customersErr = some msg := by
  unfold get_customer_overview get_customer_details at h
  cases herr : w.customersErr with
  | some msg =>
    rw [herr] at h
    dsimp only at h
    simp only [Except.error.injEq] at h
    exact ⟨msg, h.symm, rfl⟩
  | none =>
    rw [herr] at h
    dsimp only at h
    cases hc : w.customersTable cid with
    | none => rw [hc] at h; simp at h
    | some rec =>
      rw [hc] at h
      dsimp only [Option.map] at h
      rcases proj_overview_cases rec with hemp | ⟨v, hv⟩
      · rw [if_pos hemp] at h; simp at h
      · have hne : ¬(projectFields rec ["overview"]).isEmpty = true := by
          intro habs
          cases hl : projectFields rec ["overview"] with
          | nil => rw [hl] at hv; simp [alookup] at hv
          | cons x xs => rw [hl] at habs; simp at habs
        rw [if_neg hne, hv] at h
        simp at h

/-- Every exception `get_customer_preferences` re-raises is the store
failure of its `get_item` call. -/
theorem preferences_error_is_store (w : World) (cid : Option String) (e : PyErr)
    (h : get_customer_preferences w cid = .error e) :
    ∃ msg, e = .store msg ∧ w.customersErr = some msg := by
  unfold get_customer_preferences get_customer_details at h
  cases herr : w.customersErr with
  | some msg =>
    rw [herr] at h
    dsimp only at h
    simp only [Except.error.injEq] at h
    exact ⟨msg, h.symm, rfl⟩
  | none => rw [herr] at h; simp at h

/-! ## The claims -/

/-- C1 (amended): whenever `lambda_handler` returns a response at all (its
pre-dispatch parsing and the clients' construction did not raise), an
unmatched path yields status 404 with body message
`"Unrecognized api path: {path}"`, and each of the five matched paths yields
status 200 - regardless of whether the downstream tracker operation
swallowed an error. -/
theorem c1_dispatch_status (w : World) (ev : Event) (resp : Response)
    (h : lambda_handler w ev = .ok resp) :
    (ev.apiPath ∉ recognizedPaths →
      resp.statusCode = 404 ∧
      resp.message = .str ("Unrecognized api path: " ++ ev.apiPath)) ∧
    (ev.apiPath ∈ recognizedPaths → resp.statusCode = 200) := by
  unfold lambda_handler at h
  split at h
  · exact absurd h (by simp)
  · next tl hp =>
    split at h
    · exact absurd h (by simp)
    · next ji hj =>
      unfold dispatch at h
      split_ifs at h with h1 h2 h3 h4 h5
      · split at h
        · exact absurd h (by simp)
        · split at h
          · exact absurd h (by simp)
          · simp only [Except.ok.injEq] at h
            subst h
            exact ⟨fun hn => absurd (by simp [recognizedPaths, h1]) hn, fun _ => rfl⟩
      · split at h
        · exact absurd h (by simp)
        · simp only [Except.ok.injEq] at h
          subst h
          exact ⟨fun hn => absurd (by simp [recognizedPaths, h2]) hn, fun _ => rfl⟩
      · split at h
        · exact absurd h (by simp)
        · simp only [Except.ok.injEq] at h
          subst h
          exact ⟨fun hn => absurd (by simp [recognizedPaths, h3]) hn, fun _ => rfl⟩
      · simp only [Except.ok.injEq] at h
        subst h
        exact ⟨fun hn => absurd (by simp [recognizedPaths, h4]) hn, fun _ => rfl⟩
      · split at h
        · exact absurd h (by simp)
        · split at h
          · exact absurd h (by simp)
          · simp only [Except.ok.injEq] at h
            subst h
            exact ⟨fun hn => absurd (by simp [recognizedPaths, h5]) hn, fun _ => rfl⟩
      · simp only [Except.ok.injEq] at h
        subst h
        constructor
        · intro _; exact ⟨rfl, rfl⟩
        · intro hm
          simp [recognizedPaths] at hm
          rcases hm with hm | hm | hm | hm | hm <;> simp_all

/-- C1, counterexample to the claim as stated: with an unrecognized path and
a failing `JIRA_URL` secret lookup, `lambda_handler` raises instead of
returning the 404 response - the clients are constructed before the
dispatch ever looks at the path. -/
theorem c1_counterexample :
    evNope.apiPath ∉ recognizedPaths ∧
    lambda_handler wUrlRaise evNope = .error (.secrets "boom") :=
  ⟨by decide, rfl⟩

/-- C1, witness: in a healthy world the unrecognized path `/nope` yields the
404 envelope with the interpolated message. -/
theorem c1_witness :
    (Response.mk 404 (.str ("Unrecognized api path: " ++ "/nope"))).statusCode = 404 ∧
    (Response.mk 404 (.str ("Unrecognized api path: " ++ "/nope"))).message =
      .str ("Unrecognized api path: " ++ "/nope") :=
  (c1_dispatch_status wOk evNope ⟨404, .str ("Unrecognized api path: " ++ "/nope")⟩ rfl).1
    (by decide)

/-- C2 (amended): once the body has parsed and the clients are constructed,
the tracker paths always return normally (for `/updateJiraIssue`: provided
`timelineInWeeks` parses as an integer and the computed due date is inside
CPython datetime's representable range) - tracker failures are
pre-swallowed and never propagate; any exception that does propagate from
the three store paths (given `count` parses on the path that needs it) is a
customer-store failure. The router's own parsing can still raise: see the
counterexample. -/
theorem c2_router_error_policy (w : World) (ev : Event) (tl : Option JValue)
    (ji : JiraInst) (hp : parse_phase ev = .ok tl) (hj : jiraInit w = .ok ji) :
    (ev.apiPath = "/getOpenJiraIssues" → exOk (lambda_handler w ev) = true) ∧
    (ev.apiPath = "/updateJiraIssue" → ∀ t r, pyIntOfJValue tl = .ok t →
      pyDateAdd w.nowDays (timedeltaWeeksDays t) = .ok r →
      exOk (lambda_handler w ev) = true) ∧
    (∀ e, lambda_handler w ev = .error e →
      ((ev.apiPath = "/getPreferences" ∨ ev.apiPath = "/companyOverview") →
        ∃ msg, e = .store msg ∧ w.customersErr = some msg) ∧
      (ev.apiPath = "/listRecentInteractions" →
        ∀ c, pyIntOfOptString ev.count = .ok c → ∃ msg, e = .store msg)) := by
  refine ⟨?_, ?_, ?_⟩
  · intro ha
    unfold lambda_handler
    rw [hp]
    dsimp only
    rw [hj]
    dsimp only
    unfold dispatch
    rw [ha]
    simp [exOk]
  · intro ha t r htl hr
    unfold lambda_handler
    rw [hp]
    dsimp only
    rw [hj]
    dsimp only
    unfold dispatch
    rw [ha]
    simp only [String.reduceEq, if_false, if_true, reduceIte]
    rw [htl]
    dsimp only
    have hup : ∃ v, update_jira_issue w ji ev.issueKey t = .ok v := by
      unfold update_jira_issue
      rw [hr]
      dsimp only
      split
      · exact ⟨_, rfl⟩
      · exact ⟨_, rfl⟩
    obtain ⟨v, hv⟩ := hup
    rw [hv]
    rfl
  · intro e h
    unfold lambda_handler at h
    rw [hp] at h
    dsimp only at h
    rw [hj] at h
    dsimp only at h
    unfold dispatch at h
    constructor
    · intro hpath
      rcases hpath with ha | ha <;> rw [ha] at h <;>
        simp only [String.reduceEq, if_false, if_true, reduceIte] at h
      · cases hg : get_customer_preferences w ev.customerId with
        | error e2 =>
          rw [hg] at h
          dsimp only at h
          simp only [Except.error.injEq] at h
          subst h
          exact preferences_error_is_store w ev.customerId e2 hg
        | ok r => rw [hg] at h; simp at h
      · cases hg : get_customer_overview w ev.customerId with
        | error e2 =>
          rw [hg] at h
          dsimp only at h
          simp only [Except.error.injEq] at h
          subst h
          exact overview_error_is_store w ev.customerId e2 hg
        | ok r => rw [hg] at h; simp at h
    · intro ha c hc
      rw [ha] at h
      simp only [String.reduceEq, if_false, if_true, reduceIte] at h
      rw [hc] at h
      dsimp only at h
      cases hg : get_recent_customer_interactions w ev.customerId c with
      | error e2 =>
        rw [hg] at h
        dsimp only at h
        simp only [Except.error.injEq] at h
        subst h
        exact get_recent_error_is_store w ev.customerId c e2 hg
      | ok items => rw [hg] at h; simp at h

/-- C2, counterexample to the claim as stated: on the recognized path
`/listRecentInteractions` with the `count` parameter absent, the router's
own `int(count)` raises `TypeError` - with both backends healthy, so the
failure is the router's, not a downstream one. -/
theorem c2_counterexample :
    evNoCount.apiPath ∈ recognizedPaths ∧
    wOk.interactionsErr = none ∧ wOk.customersErr = none ∧
    lambda_handler wOk evNoCount = .error .typeError :=
  ⟨by decide, rfl, rfl, rfl⟩

/-- C2, witness: a `/getOpenJiraIssues` request returns normally even though
the tracker is unreachable. -/
theorem c2_witness : exOk (lambda_handler wOk evOpen) = true :=
  (c2_router_error_policy wOk evOpen none jiOk rfl rfl).1 rfl

/-- C3 (amended): for every issue key and every `timeline_in_weeks` whose
computed due date stays inside CPython datetime's representable range, the
due date sent in the PUT payload is the current date plus
`timeline_in_weeks * 7` days formatted `YYYY-MM-DD`; a successful PUT
returns `{issueKey, newTimeline}` and any downstream failure is swallowed
to `{}`. (Outside that range the due-date computation - which sits before
the `try` block - raises `OverflowError`: see the counterexample.) -/
theorem c3_update_issue_contract (w : World) (ji : JiraInst)
    (issue_key : Option String) (tl : Int) (r : Int)
    (h : pyDateAdd w.nowDays (timedeltaWeeksDays tl) = .ok r) :
    r = w.nowDays + 7 * tl ∧
    (update_request ji issue_key (strftimeYmd r)).data =
      some (.obj [("fields", .obj [("duedate", .str (strftimeYmd r))])]) ∧
    (∀ b, w.http (update_request ji issue_key (strftimeYmd r)) = .ok (.ok b) →
      update_jira_issue w ji issue_key tl =
        .ok (.obj [("issueKey", jOfOptStr issue_key), ("newTimeline", .num tl)])) ∧
    (∀ c reason, w.http (update_request ji issue_key (strftimeYmd r)) = .httpError c reason →
      update_jira_issue w ji issue_key tl = .ok (.obj [])) ∧
    (∀ reason, w.http (update_request ji issue_key (strftimeYmd r)) = .urlError reason →
      update_jira_issue w ji issue_key tl = .ok (.obj [])) ∧
    (∀ d, w.http (update_request ji issue_key (strftimeYmd r)) = .ok (.error d) →
      update_jira_issue w ji issue_key tl = .ok (.obj [])) := by
  have hr : r = w.nowDays + 7 * tl := by
    unfold pyDateAdd timedeltaWeeksDays at h
    split at h
    · simp at h
    · split at h
      · simp at h
      · simp only [Except.ok.injEq] at h; omega
  refine ⟨hr, rfl, ?_, ?_, ?_, ?_⟩
  · intro b hb
    unfold update_jira_issue
    rw [h]
    dsimp only
    rw [hb]
  · intro c reason hb
    unfold update_jira_issue
    rw [h]
    dsimp only
    rw [hb]
  · intro reason hb
    unfold update_jira_issue
    rw [h]
    dsimp only
    rw [hb]
  · intro d hb
    unfold update_jira_issue
    rw [h]
    dsimp only
    rw [hb]

/-- C3, counterexample to "the operation never raises": a timeline of
-1000000 weeks puts the due date before year 1, and the due-date
computation - executed before the `try` block - raises `OverflowError`,
which propagates. -/
theorem c3_counterexample :
    update_jira_issue wOk jiOk (some "CRM-1") (-1000000) = .error .overflowError := rfl

/-- C3, witness: on 2024-01-01 a one-week timeline for CRM-1 PUTs due date
2024-01-08 and returns the success dictionary. -/
theorem c3_witness :
    update_jira_issue wPut jiOk (some "CRM-1") 1 =
      .ok (.obj [("issueKey", .str "CRM-1"), ("newTimeline", .num 1)]) ∧
    strftimeYmd 19730 = "2024-01-08" ∧
    (update_request jiOk (some "CRM-1") (strftimeYmd 19730)).data =
      some (.obj [("fields", .obj [("duedate", .str "2024-01-08")])]) :=
  ⟨(c3_update_issue_contract wPut jiOk (some "CRM-1") 1 19730 rfl).2.2.1 (.ok .null) rfl,
   by decide, rfl⟩

/-- C4: `get_open_jira_issues` never raises: whenever its `try` block fails
(transport error, HTTP error status, undecodable or malformed body, missing
key, non-dict value - any exception) the result is `[]`; on success it
returns the parsed tasks, one per issue of the response, and an issue whose
`assignee` is falsy (JSON null) gets the literal string `"None"` as its
assignee. -/
theorem c4_open_issues_swallow (w : World) (ji : JiraInst) (project_id : Option String) :
    (∀ e, get_open_try w ji project_id = .error e →
      get_open_jira_issues w ji project_id = []) ∧
    (∀ ts, get_open_try w ji project_id = .ok ts →
      get_open_jira_issues w ji project_id = ts) ∧
    (∀ j items ts, w.http (search_request ji project_id) = .ok (.ok (.ok j)) →
      pyGet j "issues" = .ok (.arr items) →
      get_open_try w ji project_id = .ok ts → ts.length = items.length) ∧
    (∀ issue fields a t, pyGet issue "fields" = .ok fields →
      pyGet fields "assignee" = .ok a → pyTruthy a = false →
      parseIssue issue = .ok t → pyGet t "assignee" = .ok (.str "None")) := by
  refine ⟨?_, ?_, ?_, ?_⟩
  · intro e he; unfold get_open_jira_issues; rw [he]
  · intro ts hts; unfold get_open_jira_issues; rw [hts]
  · intro j items ts hhttp hissues htry
    unfold get_open_try at htry
    rw [hhttp] at htry
    simp only [] at htry
    rw [hissues] at htry
    exact parseIssues_length items ts htry
  · intro issue fields a t hf ha hta ht
    unfold parseIssue at ht
    split at ht
    · simp at ht
    · split at ht
      · simp at ht
      · next fields2 hfields2 =>
        rw [hf] at hfields2
        simp only [Except.ok.injEq] at hfields2
        subst hfields2
        split at ht
        · simp at ht
        · split at ht
          · simp at ht
          · split at ht
            · simp at ht
            · split at ht
              · simp at ht
              · split at ht
                · simp at ht
                · split at ht
                  · simp at ht
                  · split at ht
                    · simp at ht
                    · next assignee2 hassignee2 =>
                      rw [ha] at hassignee2
                      simp only [Except.ok.injEq] at hassignee2
                      subst hassignee2
                      split at ht
                      · simp at ht
                      · next nm hnm =>
                        unfold parseAssignee at hnm
                        rw [hta] at hnm
                        simp only [Bool.false_eq_true, if_false, Except.ok.injEq] at hnm
                        subst hnm
                        simp only [Except.ok.injEq] at ht
                        subst ht
                        simp [pyGet, alookup]

/-- C4, witness: with the tracker unreachable the listing is the empty
list. -/
theorem c4_witness : get_open_jira_issues wOk jiOk (some "P1") = [] :=
  (c4_open_issues_swallow wOk jiOk (some "P1")).1 (.urlError "connection refused") rfl

/-- C5: with the customer store reachable, `get_customer_overview` returns
the stored `overview` value when the record exists and carries it, and `{}`
when no record exists - and a record that lacks the `overview` field is not
distinguished from the no-record case (the empty projected dict is falsy
and coalesces to `{}` too). -/
theorem c5_overview_coalesce (w : World) (cid : Option String)
    (h : w.customersErr = none) :
    (w.customersTable cid = none → get_customer_overview w cid = .ok (.obj [])) ∧
    (∀ rec v, w.customersTable cid = some rec → alookup rec "overview" = some v →
      get_customer_overview w cid = .ok v) ∧
    (∀ rec, w.customersTable cid = some rec → alookup rec "overview" = none →
      get_customer_overview w cid = .ok (.obj [])) := by
  unfold get_customer_overview get_customer_details
  rw [h]
  refine ⟨fun h1 => by rw [h1]; rfl, fun rec v h1 h2 => ?_, fun rec h1 h2 => ?_⟩
  · rw [h1]; simp [projectFields, h2, alookup]
  · rw [h1]; simp [projectFields, h2]

/-- C5, witness: customer C1's overview comes back verbatim; an unknown
customer gets `{}`. -/
theorem c5_witness :
    get_customer_overview wCust (some "C1") = .ok (.str "Acme overview") ∧
    get_customer_overview wCust (some "C2") = .ok (.obj []) :=
  ⟨(c5_overview_coalesce wCust (some "C1") rfl).2.1 custRec (.str "Acme overview") rfl rfl,
   (c5_overview_coalesce wCust (some "C2") rfl).1 rfl⟩

/-- C6: for every positive `count = N`, the interaction listing returns at
most N records, non-increasing by `date`, each carrying only the `date`
and `notes` fields; any store failure is re-raised unmodified. -/
theorem c6_recent_interactions (w : World) (cid : Option String) (count : Int)
    (hpos : 0 < count) :
    (∀ msg, w.interactionsErr = some msg →
      get_recent_customer_interactions w cid count = .error (.store msg)) ∧
    (∀ items, get_recent_customer_interactions w cid count = .ok items →
      items.length ≤ count.toNat ∧
      items.Pairwise (fun a b => projDate b ≤ projDate a) ∧
      (∀ j ∈ items, objKeys j = ["date"] ∨ objKeys j = ["date", "notes"])) := by
  constructor
  · intro msg hmsg
    unfold get_recent_customer_interactions queryInteractions
    rw [hmsg]
  · intro items hit
    unfold get_recent_customer_interactions queryInteractions at hit
    cases herr : w.interactionsErr with
    | some msg => rw [herr] at hit; simp at hit
    | none =>
      rw [herr, if_neg (by omega)] at hit
      simp only [Except.ok.injEq] at hit
      subst hit
      refine ⟨?_, ?_, ?_⟩
      · simp [List.length_take]
      · rw [List.pairwise_map]
        have hs := sorted_sortInteractionsDesc (w.interactionsTable cid)
        have ht := List.Pairwise.sublist (List.take_sublist count.toNat _) hs
        exact ht.imp (fun hab => by
          rw [projDate_projectInteraction, projDate_projectInteraction]; exact hab)
      · intro j hj
        rcases List.mem_map.mp hj with ⟨it, _, rfl⟩
        exact objKeys_projectInteraction it

/-- C6, witness: a failing query re-raises the store error; with two stored
interactions and `count = 5`, the listing comes back newest-first, at most
five long, with only `date`/`notes` keys. -/
theorem c6_witness :
    get_recent_customer_interactions wStoreErr (some "C1") 3 = .error (.store "throttled") ∧
    ((List.length [JValue.obj [("date", .str "2024-02-11"), ("notes", .str "renewal")],
        JValue.obj [("date", .str "2024-01-05"), ("notes", .str "kickoff")]] ≤
          (5 : Int).toNat) ∧
      List.Pairwise (fun a b => projDate b ≤ projDate a)
        [JValue.obj [("date", .str "2024-02-11"), ("notes", .str "renewal")],
         JValue.obj [("date", .str "2024-01-05"), ("notes", .str "kickoff")]] ∧
      (∀ j ∈ [JValue.obj [("date", .str "2024-02-11"), ("notes", .str "renewal")],
          JValue.obj [("date", .str "2024-01-05"), ("notes", .str "kickoff")]],
        objKeys j = ["date"] ∨ objKeys j = ["date", "notes"])) :=
  ⟨(c6_recent_interactions wStoreErr (some "C1") 3 (by decide)).1 "throttled" rfl,
   (c6_recent_interactions wData (some "C1") 5 (by decide)).2 _ (by
      simp only [get_recent_customer_interactions, queryInteractions,
        sortInteractionsDesc, wData, wOk, dataRows, List.insertionSort,
        List.orderedInsert, projectInteraction, alookup]
      norm_num
      rw [if_neg (by decide)]
      rfl)⟩

/-- C7 (amended): `JiraInteraction.__init__` raises exactly when a secret
lookup raises or the API-key value fetch fails (the key fetch indexes
`SecretString` directly, so a key response without one raises `KeyError`,
and a key reference that resolved to no string makes boto3 reject the `None`
`SecretId`); but when the tracker-URL or username secret resolves WITHOUT a
`SecretString`, `get_secret` returns `None` implicitly and construction
completes with that `None` in place - it does not raise. -/
theorem c7_construction_failure_modes (w : World) :
    (∀ m, w.secretsManager (some "JIRA_URL") = .raise m →
      jiraInit w = .error (.secrets m)) ∧
    (∀ u m, w.secretsManager (some "JIRA_URL") = .ok u →
      w.secretsManager (some "JIRA_API_KEY_ARN") = .raise m →
      jiraInit w = .error (.secrets m)) ∧
    (∀ u a m, w.secretsManager (some "JIRA_URL") = .ok u →
      w.secretsManager (some "JIRA_API_KEY_ARN") = .ok a →
      w.secretsManager (some "JIRA_USER_NAME") = .raise m →
      jiraInit w = .error (.secrets m)) ∧
    (∀ u s, w.secretsManager (some "JIRA_URL") = .ok u →
      w.secretsManager (some "JIRA_API_KEY_ARN") = .ok none →
      w.secretsManager (some "JIRA_USER_NAME") = .ok s →
      jiraInit w = .error (.secrets "ParamValidationError")) ∧
    (∀ u av s m, w.secretsManager (some "JIRA_URL") = .ok u →
      w.secretsManager (some "JIRA_API_KEY_ARN") = .ok (some av) →
      w.secretsManager (some "JIRA_USER_NAME") = .ok s →
      w.secretsManager (some av) = .raise m →
      jiraInit w = .error (.secrets m)) ∧
    (∀ u av s, w.secretsManager (some "JIRA_URL") = .ok u →
      w.secretsManager (some "JIRA_API_KEY_ARN") = .ok (some av) →
      w.secretsManager (some "JIRA_USER_NAME") = .ok s →
      w.secretsManager (some av) = .ok none →
      jiraInit w = .error (.keyError "SecretString")) ∧
    (∀ u av s k, w.secretsManager (some "JIRA_URL") = .ok u →
      w.secretsManager (some "JIRA_API_KEY_ARN") = .ok (some av) →
      w.secretsManager (some "JIRA_USER_NAME") = .ok s →
      w.secretsManager (some av) = .ok (some k) →
      jiraInit w = .ok ⟨u, some av, s, b64Encode (strBytes (pyStr s ++ ":" ++ k))⟩) := by
  refine ⟨?_, ?_, ?_, ?_, ?_, ?_, ?_⟩
  · intro m h1; unfold jiraInit get_secret; rw [h1]
  · intro u m h1 h2; unfold jiraInit get_secret; rw [h1, h2]
  · intro u a m h1 h2 h3; unfold jiraInit get_secret; rw [h1, h2, h3]
  · intro u s h1 h2 h3; unfold jiraInit get_secret get_jira_api_key; rw [h1, h2, h3]
  · intro u av s m h1 h2 h3 h4; unfold jiraInit get_secret get_jira_api_key
    rw [h1, h2, h3]; simp only []; rw [h4]
  · intro u av s h1 h2 h3 h4; unfold jiraInit get_secret get_jira_api_key
    rw [h1, h2, h3]; simp only []; rw [h4]
  · intro u av s k h1 h2 h3 h4; unfold jiraInit get_secret get_jira_api_key
    rw [h1, h2, h3]; simp only []; rw [h4]

/-- C7, counterexample to the claim as stated: when the `JIRA_URL` secret
exists but carries no `SecretString`, `get_secret` returns `None` and
construction COMPLETES with a defaulted (`None`) tracker URL instead of
raising. -/
theorem c7_counterexample :
    wNoUrlString.secretsManager (some "JIRA_URL") = .ok none ∧
    jiraInit wNoUrlString = .ok ⟨none, some "arn-1", some "bob", "Ym9iOmszeQ=="⟩ :=
  ⟨rfl, rfl⟩

/-- C7, witness: a raising `JIRA_URL` lookup makes construction raise. -/
theorem c7_witness : jiraInit wUrlRaise = .error (.secrets "boom") :=
  (c7_construction_failure_modes wUrlRaise).1 "boom" rfl

/-- C8: with the store reachable, `get_customer_preferences` returns the
store's projected response unchanged: `None` (null) when no record exists -
no coalescing to `{}` as `get_customer_overview` does - and the projection
of the record onto `meetingType`, `timeofDay`, `dayOfWeek` when one does. -/
theorem c8_preferences_passthrough (w : World) (cid : Option String)
    (h : w.customersErr = none) :
    (w.customersTable cid = none → get_customer_preferences w cid = .ok none) ∧
    (∀ rec, w.customersTable cid = some rec →
      get_customer_preferences w cid =
        .ok (some (projectFields rec ["meetingType", "timeofDay", "dayOfWeek"]))) := by
  unfold get_customer_preferences get_customer_details
  rw [h]
  exact ⟨fun h1 => by rw [h1]; rfl, fun rec h1 => by rw [h1]; rfl⟩

/-- C8, witness: customer C1's preferences are the projected mapping (only
the fields the record has); an unknown customer gets `None`, not `{}`. -/
theorem c8_witness :
    get_customer_preferences wCust (some "C1") =
      .ok (some (projectFields custRec ["meetingType", "timeofDay", "dayOfWeek"])) ∧
    projectFields custRec ["meetingType", "timeofDay", "dayOfWeek"] =
      [("meetingType", .str "virtual")] ∧
    get_customer_preferences wCust (some "C9") = .ok none :=
  ⟨(c8_preferences_passthrough wCust (some "C1") rfl).2 custRec rfl, rfl,
   (c8_preferences_passthrough wCust (some "C9") rfl).1 rfl⟩

/-- C9: the search request's `jql` parameter is exactly
`project={project_id} AND issuetype=Task AND status='In Progress' OR
status='To Do' order by duedate` with the project id interpolated; under
JQL's precedence (AND over OR) that string is the rendering of the
expression whose OR groups the project/type filter with the `In Progress`
clause only, leaving the `To Do` clause unscoped. -/
theorem c9_search_query_literal (ji : JiraInst) (project_id : Option String) :
    (search_request ji project_id).params = [("jql", jqlString project_id)] ∧
    jqlString project_id =
      renderJql (jqlPrecedenceReading project_id) ++ " order by duedate" := by
  refine ⟨rfl, ?_⟩
  simp [jqlString, renderJql, jqlPrecedenceReading, squo, String.append_assoc]

/-- C10: once the body has parsed, `lambda_handler` constructs the tracker
client before dispatching on the path, so a construction failure - in
particular a raising tracker-secret lookup - fails the whole invocation for
EVERY request, including ones whose path never touches the tracker. -/
theorem c10_eager_client_construction (w : World) (ev : Event) (tl : Option JValue)
    (hp : parse_phase ev = .ok tl) :
    (∀ e, jiraInit w = .error e → lambda_handler w ev = .error e) ∧
    (∀ m, w.secretsManager (some "JIRA_URL") = .raise m →
      lambda_handler w ev = .error (.secrets m)) := by
  constructor
  · intro e hj; unfold lambda_handler; rw [hp, hj]
  · intro m hu
    unfold lambda_handler
    rw [hp]
    have hj : jiraInit w = .error (.secrets m) := by
      unfold jiraInit get_secret; rw [hu]
    rw [hj]

/-- C10, witness: a `/companyOverview` request - which never uses the
tracker - still fails whole when the `JIRA_URL` secret lookup raises. -/
theorem c10_witness : lambda_handler wUrlRaise evOverview = .error (.secrets "boom") :=
  (c10_eager_client_construction wUrlRaise evOverview none rfl).2 "boom" rfl
